import Mathlib

/-!
Verification of the IQ-TREE command-line wrapper
(`Bio/Phylo/Applications/_IQtree.py`).

The module declares a table of option descriptors (`self.parameters` in
`IQTreeCommandline.__init__`) together with two module-level checker
functions `_is_int` and `_is_number`, and delegates construction,
validation and rendering of the command line to the `Bio.Application`
machinery (`_Option`, `_Switch`, `AbstractCommandline`).  That machinery
belongs to this repository but is not part of the sources given here, so
its behaviour (the invocation builder, required-value checking, the
process runner boundary) is modelled from the specification; every such
definition is marked `Modelled from the spec:`.  The descriptor table and
the checker functions themselves are translated directly from
`_IQtree.py`.
-/

namespace IQTree

/-- Values a caller can supply for an option.  The wrapper's checkers only
ever distinguish `int` instances (via `isinstance(x, int)`), strings, and
booleans (a Python `bool` is a subclass of `int`); those are the three
shapes of value the keyword interface deals in. -/
inductive Value where
  | intV : Int → Value
  | strV : String → Value
  | boolV : Bool → Value
deriving DecidableEq, Repr

/-- Python truthiness for the three value shapes: a nonzero int, a
nonempty string, and `True` are truthy. -/
def truthy : Value → Bool
  | .intV i => i != 0
  | .strV s => s != ""
  | .boolV b => b

/-- Python `str(value)` for the three value shapes. -/
def pyStr : Value → String
  | .intV i => toString i
  | .strV s => s
  | .boolV b => if b then "True" else "False"

/-- Python `str.isdigit` on the strings this wrapper deals in: true iff
the string is nonempty and every character is a decimal digit.  (Python's
`str.isdigit` additionally accepts some non-ASCII Unicode digit
characters; no descriptor or claim here involves those.) -/
def pyIsDigit (s : String) : Bool :=
  !s.toList.isEmpty && s.toList.all Char.isDigit

/-- Source: `_is_int(x)`, the checker for integer inputs:
`isinstance(x, int) or x.isdigit()`.  A Python `bool` is an `int`, so the
first disjunct also accepts booleans. -/
def is_int : Value → Bool
  | .intV _ => true
  | .boolV _ => true
  | .strV s => pyIsDigit s

/-- Digit characters consumed from the front of a character list, with
the remainder.  Helper for the model of `float()` parsing. -/
def spanDigits (cs : List Char) : List Char × List Char :=
  cs.span Char.isDigit

/-- Optional exponent part of a Python float literal: empty, or
`e`/`E`, an optional sign, and at least one digit, consuming the whole
remainder. -/
def pyFloatExpPart : List Char → Bool
  | [] => true
  | c :: rest =>
    (c == 'e' || c == 'E') &&
    (let rest2 := match rest with
      | s :: r => if s == '+' || s == '-' then r else s :: r
      | [] => []
    let (d, rest3) := spanDigits rest2
    !d.isEmpty && rest3.isEmpty)

/-- Mantissa-plus-exponent part of a Python float literal:
`digits [. digits] [exp]` or `. digits [exp]`, with at least one digit
overall. -/
def pyFloatNumeric (cs : List Char) : Bool :=
  let (d1, rest) := spanDigits cs
  match rest with
  | '.' :: rest2 =>
    let (d2, rest3) := spanDigits rest2
    (!d1.isEmpty || !d2.isEmpty) && pyFloatExpPart rest3
  | _ => !d1.isEmpty && pyFloatExpPart rest

/-- Model of Python's built-in `float(s)` succeeding on a string:
surrounding whitespace is stripped, then an optional sign followed by
either `inf`/`infinity`/`nan` (case-insensitive) or a decimal literal
with optional fraction and exponent.  (PEP 515 underscore grouping is
omitted; no descriptor or claim involves it.) -/
def pyFloatParseable (s : String) : Bool :=
  let cs := s.toList.dropWhile Char.isWhitespace
  let cs := (cs.reverse.dropWhile Char.isWhitespace).reverse
  let cs := match cs with
    | c :: rest => if c == '+' || c == '-' then rest else c :: rest
    | [] => []
  let lower := cs.map Char.toLower
  if lower == "inf".toList || lower == "infinity".toList || lower == "nan".toList then
    true
  else
    pyFloatNumeric cs

/-- Source: `_is_number(x)`, the checker for numeric inputs including
floats: `try: float(x); return True; except ValueError: return False`.
`float` always succeeds on an `int` or a `bool`; on a string it succeeds
exactly when the string parses as a float literal. -/
def is_number : Value → Bool
  | .intV _ => true
  | .boolV _ => true
  | .strV s => pyFloatParseable s

/-- Exceptions a checker call can raise.  `nameError n` is Python's
`NameError` for an unbound name `n`; `typeErrorNotCallable` is the
`TypeError` raised by calling a non-callable object. -/
inductive PyErr where
  | nameError (n : String)
  | typeErrorNotCallable
deriving DecidableEq, Repr

/-- The closed set of checker predicates appearing in the descriptor
table (each tag corresponds to one lambda or named function in the
source; `Pred.eval` gives its input-output behaviour). -/
inductive Pred where
  | isIntP
  | isNumberP
  | stEnum
  | ntEnum
  | lmapEnum
  | msubEnum
  | meritEnum
  | bsamEnum
  | persRange
deriving DecidableEq, Repr

/-- Behaviour of each checker predicate, translated from the source:

* `isIntP` / `isNumberP`: the module-level `_is_int` / `_is_number`.
* `stEnum`: `lambda x: x in ("DNA", "AA", "BIN", "MORPH", "CODON",
  "NT2AA", "DNA-to-AA")` — tuple membership, false for non-strings.
* `ntEnum`: `lambda x: isinstance(x, int) or x.isdigit() or x in
  ("AUTO")` — note `("AUTO")` is the *string* `"AUTO"`, not a tuple, so
  the final test is contiguous-substring containment.  Used by both
  `-nt` and `-ntmax`, whose lambdas are textually identical.
* `lmapEnum`: `lambda x: isinstance(x, int) or x.isdigit() or x in
  ("ALL")` — same string-containment shape with `"ALL"`.
* `msubEnum`: `lambda x: x in ("nuclear", "mitochondrial",
  "chloroplast", "viral")`.
* `meritEnum`: `lambda x: x in ("AIC", "AICc", "BIC")`.
* `bsamEnum`: `lambda x: x in ("GENE", "GENESITE")`.
* `persRange`: `lambda x: True if (x in range(0, 1)) else False` —
  `range(0, 1)` contains only `0`, and membership compares by equality,
  so only the int `0` (and `False`, which equals `0`) is accepted; every
  string is rejected. -/
def Pred.eval : Pred → Value → Bool
  | .isIntP, v => is_int v
  | .isNumberP, v => is_number v
  | .stEnum, .strV s =>
      ["DNA", "AA", "BIN", "MORPH", "CODON", "NT2AA", "DNA-to-AA"].contains s
  | .stEnum, _ => false
  | .ntEnum, .intV _ => true
  | .ntEnum, .boolV _ => true
  | .ntEnum, .strV s => pyIsDigit s || decide (s.toList <:+: "AUTO".toList)
  | .lmapEnum, .intV _ => true
  | .lmapEnum, .boolV _ => true
  | .lmapEnum, .strV s => pyIsDigit s || decide (s.toList <:+: "ALL".toList)
  | .msubEnum, .strV s =>
      ["nuclear", "mitochondrial", "chloroplast", "viral"].contains s
  | .msubEnum, _ => false
  | .meritEnum, .strV s => ["AIC", "AICc", "BIC"].contains s
  | .meritEnum, _ => false
  | .bsamEnum, .strV s => ["GENE", "GENESITE"].contains s
  | .bsamEnum, _ => false
  | .persRange, .intV i => i == 0
  | .persRange, .boolV b => !b
  | .persRange, .strV _ => false

/-- A descriptor's `checker_function` slot.

* `noCheck`: no `checker_function` was passed (Python `None`).
* `fn p`: a callable predicate, as tabulated in `Pred`.
* `fnRaises e`: a callable whose body raises `e` on every call.  This is
  the shape of the `-t`/`-te` lambdas, `lambda x: True if filename else
  (x in ("BIONJ", "RANDOM", "PARS", "PLLPARS"))`: the conditional first
  evaluates the bare name `filename`, and no binding for `filename`
  exists in the lambda's enclosing function, the module, or the builtins
  (a keyword argument inside a call expression binds no name), so every
  call raises `NameError("filename")` before either branch is reached.
* `boolConst b`: the slot holds the non-callable boolean `b` — the `-bo`
  entry passes `checker_function = True`. -/
inductive Checker where
  | noCheck
  | fn (p : Pred)
  | fnRaises (e : PyErr)
  | boolConst (b : Bool)
deriving DecidableEq, Repr

/-- The dead else-branch of the `-t`/`-te` checker lambdas, kept for
reference: it is never reached because evaluating the condition raises
(see `Checker.fnRaises`). -/
def treeEnumFallback : Value → Bool
  | .strV s => ["BIONJ", "RANDOM", "PARS", "PLLPARS"].contains s
  | _ => false

/-- Whether the checker slot holds a callable. -/
def Checker.isCallable : Checker → Bool
  | .noCheck => false
  | .fn _ => true
  | .fnRaises _ => true
  | .boolConst _ => false

/-- Whether the checker slot is empty (Python `None`). -/
def Checker.isNone : Checker → Bool
  | .noCheck => true
  | _ => false

/-- Calling the checker slot on a supplied value: an absent checker
accepts everything; a predicate returns its verdict; the `-t`/`-te`
lambdas raise; calling the non-callable `True` raises `TypeError`. -/
def applyChecker : Checker → Value → Except PyErr Bool
  | .noCheck, _ => .ok true
  | .fn p, v => .ok (p.eval v)
  | .fnRaises e, _ => .error e
  | .boolConst _, _ => .error .typeErrorNotCallable

/-- One entry of the option table: the external flag (`names[0]`), the
keyword/attribute name (`names[1]`), whether it is a `_Switch` (bare
flag, no value) rather than an `_Option`, whether it is required,
whether flag and value are joined with `=` (`equate`), and its checker
slot.  The `filename` marker of the source is not modelled: it only
affects quoting of paths containing spaces, which no claim touches. -/
structure Descriptor where
  flag : String
  name : String
  isSwitch : Bool := false
  isRequired : Bool := false
  equate : Bool := false
  checker : Checker := .noCheck
deriving DecidableEq, Repr

instance : Inhabited Descriptor := ⟨{ flag := "", name := "" }⟩

/-- The option table `self.parameters` of `IQTreeCommandline.__init__`,
entry by entry in declaration order.  Every `_Option` in the source
passes `equate = False` explicitly except `-bb`, which leaves the
upstream default (`equate = True`) in force. -/
def parameters : List Descriptor := [
  { flag := "-s", name := "specify", isRequired := true },
  { flag := "-st", name := "sequencetype", checker := .fn .stEnum },
  { flag := "-t", name := "tree", checker := .fnRaises (.nameError "filename") },
  { flag := "-te", name := "usertree", checker := .fnRaises (.nameError "filename") },
  { flag := "-o", name := "outgroup" },
  { flag := "-pre", name := "prefix" },
  { flag := "-nt", name := "nt", checker := .fn .ntEnum },
  { flag := "-ntmax", name := "ntmax", checker := .fn .ntEnum },
  { flag := "-v", name := "verbose", isSwitch := true },
  { flag := "-quiet", name := "quiet", isSwitch := true },
  { flag := "-keep-ident", name := "keep", isSwitch := true },
  { flag := "-safe", name := "safe", isSwitch := true },
  { flag := "-mem", name := "memory" },
  { flag := "-redo", name := "redo", isSwitch := true },
  { flag := "-cptime", name := "checkpoint_interval", checker := .fn .isIntP },
  { flag := "-lmap", name := "lmap", checker := .fn .lmapEnum },
  { flag := "-lmclust", name := "taxon_clusters" },
  { flag := "-wql", name := "wql", isSwitch := true },
  { flag := "-n", name := "n", checker := .fn .isIntP },
  { flag := "-m", name := "model" },
  { flag := "-rcluster", name := "rcluster", checker := .fn .isIntP },
  { flag := "-rclusterf", name := "rclusterf", checker := .fn .isIntP },
  { flag := "-rcluster-max", name := "rcluster-max", checker := .fn .isIntP },
  { flag := "-mset", name := "mset" },
  { flag := "-msub", name := "msub", checker := .fn .msubEnum },
  { flag := "-mfreq", name := "mfreq" },
  { flag := "-mrate", name := "mrate" },
  { flag := "-cmin", name := "cmin" },
  { flag := "-cmax", name := "cmax" },
  { flag := "-merit", name := "merit", checker := .fn .meritEnum },
  { flag := "-mtree", name := "mtree", isSwitch := true },
  { flag := "-mredo", name := "mredo", isSwitch := true },
  { flag := "-madd", name := "madd" },
  { flag := "-mdef", name := "mdef" },
  { flag := "-mwopt", name := "mwopt", isSwitch := true },
  { flag := "-a", name := "a" },
  { flag := "-amin", name := "amin", checker := .fn .isNumberP },
  { flag := "-gmedian", name := "gmedian", isSwitch := true },
  { flag := "-i", name := "i" },
  { flag := "--opt-gamma-inv", name := "optgammainv", isSwitch := true },
  { flag := "-wsr", name := "wsr", isSwitch := true },
  { flag := "-mh", name := "mh", isSwitch := true },
  { flag := "-q", name := "q" },
  { flag := "-spp", name := "spp" },
  { flag := "-spp", name := "spp" },
  { flag := "-ft", name := "ft" },
  { flag := "-fs", name := "fs" },
  { flag := "-fmax", name := "fmax", isSwitch := true },
  { flag := "-allnni", name := "allnni", isSwitch := true },
  { flag := "-djc", name := "djc", isSwitch := true },
  { flag := "-fast", name := "fast", isSwitch := true },
  { flag := "-g", name := "g" },
  { flag := "-ninit", name := "ninit", checker := .fn .isIntP },
  { flag := "-ntop", name := "ntop", checker := .fn .isIntP },
  { flag := "-nbest", name := "nbest", checker := .fn .isIntP },
  { flag := "-nstop", name := "nstop", checker := .fn .isIntP },
  { flag := "-pers", name := "pers", checker := .fn .persRange },
  { flag := "-sprrad", name := "sprrad" },
  { flag := "-bb", name := "bb", equate := true, checker := .fn .isNumberP },
  { flag := "-bcor", name := "bcor", checker := .fn .isNumberP },
  { flag := "-beps", name := "beps", checker := .fn .isNumberP },
  { flag := "-bnni", name := "bnni", isSwitch := true },
  { flag := "-bsam", name := "bsam", checker := .fn .bsamEnum },
  { flag := "-nm", name := "nm", checker := .fn .isIntP },
  { flag := "-nstep", name := "nstep", checker := .fn .isIntP },
  { flag := "-wbt", name := "wbt", isSwitch := true },
  { flag := "-wbtl", name := "wbtl", isSwitch := true },
  { flag := "-b", name := "b", checker := .fn .isIntP },
  { flag := "-bs", name := "bs", checker := .fn .isIntP },
  { flag := "-bo", name := "bo", checker := .boolConst true },
  { flag := "-alrt", name := "alrt", checker := .fn .isIntP },
  { flag := "-abayes", name := "abayes", isSwitch := true },
  { flag := "-lbp", name := "lbp", checker := .fn .isIntP },
  { flag := "-asr", name := "asr", isSwitch := true },
  { flag := "-asr-min", name := "asr-min", checker := .fn .isNumberP }
]

/-- The descriptor at position `i` of the table (a default out-of-range
value keeps statements total; the default is neither a switch nor
required and has an empty name). -/
def paramAt (i : Nat) : Descriptor := parameters.getD i default

/-- The keyword names the table knows. -/
def knownNames : List String := parameters.map (·.name)

/-- Keyword arguments supplied at construction: name-value pairs. -/
abbrev Kwargs := List (String × Value)

/-- First value supplied for keyword `n`, if any. -/
def lookupKw (kw : Kwargs) (n : String) : Option Value :=
  (kw.find? (fun p => p.1 == n)).map (·.2)

/-- Modelled from the spec: the error taxonomy of section 7 for the
construction/validation phase of `Bio.Application` (not under the given
sources) — (a) MissingRequiredValue, (b) InvalidValue naming the
offending descriptor, (c) UnknownOption; a checker that raises
propagates its exception. -/
inductive BuildError where
  | missingRequiredValue (name : String)
  | invalidValue (name : String)
  | unknownOption (name : String)
  | checkerRaised (name : String) (e : PyErr)
deriving DecidableEq, Repr

/-- Modelled from the spec: token emission for one descriptor with a
supplied value (section 4.3 of the spec; the rendering half of
`Bio.Application`, not under the given sources): a switch emits its bare
flag when the value is truthy and nothing otherwise; an option emits
flag and value joined with `=` when `equate` is set, else as two
separate tokens. -/
def renderDescr (d : Descriptor) (v : Value) : List String :=
  if d.isSwitch then
    if truthy v then [d.flag] else []
  else if d.equate then [d.flag ++ "=" ++ pyStr v]
  else [d.flag, pyStr v]

/-- Modelled from the spec: processing of one descriptor (section 4.3;
the validation half of `Bio.Application`, not under the given sources).
If no value was supplied, a required descriptor fails with
MissingRequiredValue and any other descriptor contributes no tokens; if
a value was supplied, its checker is called — a raising call propagates,
a false verdict fails with InvalidValue naming the descriptor, a true
verdict emits the descriptor's tokens. -/
def processDescr (kw : Kwargs) (d : Descriptor) : Except BuildError (List String) :=
  match lookupKw kw d.name with
  | none =>
    if d.isRequired then .error (.missingRequiredValue d.name) else .ok []
  | some v =>
    match applyChecker d.checker v with
    | .error e => .error (.checkerRaised d.name e)
    | .ok true => .ok (renderDescr d v)
    | .ok false => .error (.invalidValue d.name)

/-- Modelled from the spec: the walk over the descriptor table in
declaration order, concatenating each descriptor's tokens and stopping
at the first error. -/
def walkParams (kw : Kwargs) : List Descriptor → Except BuildError (List String)
  | [] => .ok []
  | d :: rest =>
    match processDescr kw d with
    | .error e => .error e
    | .ok t =>
      match walkParams kw rest with
      | .error e => .error e
      | .ok ts => .ok (t ++ ts)

/-- Modelled from the spec: the invocation builder (sections 4.3 and 7;
the `AbstractCommandline` construction/rendering pipeline, not under the
given sources).  The executable path comes first, then each descriptor's
tokens in declaration order.  Errors (a)-(c) of the taxonomy all precede
any process spawn; they are checked in the taxonomy's order — the
descriptor walk (missing-required and invalid values) first, then the
unknown-keyword check. -/
def build (cmd : String) (kw : Kwargs) : Except BuildError (List String) :=
  match walkParams kw parameters with
  | .error e => .error e
  | .ok ts =>
    match kw.find? (fun p => !(knownNames.contains p.1)) with
    | some p => .error (.unknownOption p.1)
    | none => .ok (cmd :: ts)

/-- Modelled from the spec: what the process runner returns (section
4.4): exit code and captured output streams. -/
structure ProcResult where
  exitCode : Int
  stdout : String
  stderr : String

/-- Modelled from the spec: the full pipeline — build the token
sequence, and only when building succeeded hand the tokens to the
process runner (section 4.4; the `__call__` path of
`AbstractCommandline`, not under the given sources).  The runner is an
arbitrary function standing for subprocess execution; when `build`
fails, the result is the build error, independent of the runner. -/
def invoke (runner : List String → ProcResult) (cmd : String) (kw : Kwargs) :
    Except BuildError ProcResult :=
  (build cmd kw).map runner

/-! ## Helper lemmas -/

theorem pyIsDigit_iff (s : String) :
    pyIsDigit s = true ↔ s.toList ≠ [] ∧ ∀ c ∈ s.toList, c.isDigit = true := by
  unfold pyIsDigit
  simp [List.isEmpty_iff, List.all_eq_true]

theorem processDescr_congr (kw1 kw2 : Kwargs) (d : Descriptor)
    (h : lookupKw kw1 d.name = lookupKw kw2 d.name) :
    processDescr kw1 d = processDescr kw2 d := by
  unfold processDescr
  rw [h]

theorem walkParams_congr (kw1 kw2 : Kwargs) (ds : List Descriptor)
    (h : ∀ d ∈ ds, lookupKw kw1 d.name = lookupKw kw2 d.name) :
    walkParams kw1 ds = walkParams kw2 ds := by
  induction ds with
  | nil => rfl
  | cons d rest ih =>
    have h1 := processDescr_congr kw1 kw2 d (h d (List.mem_cons_self d rest))
    have h2 := ih (fun d2 hd2 => h d2 (List.mem_cons_of_mem d hd2))
    simp only [walkParams, h1, h2]

theorem build_congr (c : String) (kw1 kw2 : Kwargs)
    (h : ∀ n ∈ knownNames, lookupKw kw1 n = lookupKw kw2 n)
    (h1 : ∀ p ∈ kw1, p.1 ∈ knownNames) (h2 : ∀ p ∈ kw2, p.1 ∈ knownNames) :
    build c kw1 = build c kw2 := by
  have hw : walkParams kw1 parameters = walkParams kw2 parameters :=
    walkParams_congr _ _ _ (fun d hd => h d.name (List.mem_map_of_mem _ hd))
  have f1 : kw1.find? (fun p => !(knownNames.contains p.1)) = none := by
    apply List.find?_eq_none.mpr
    intro p hp
    simpa using h1 p hp
  have f2 : kw2.find? (fun p => !(knownNames.contains p.1)) = none := by
    apply List.find?_eq_none.mpr
    intro p hp
    simpa using h2 p hp
  simp only [build, hw, f1, f2]

/-! ## Claim theorems -/

/-- C1: the only descriptor marked required is the input-alignment
descriptor `-s`/`specify`; building an invocation whose keyword mapping
supplies no value for `specify` fails with a missing-required-value
error naming `specify`, whatever the other keywords are, and the result
does not depend on the process runner — the runner is never handed a
token sequence. -/
theorem C1_missing_required_fails (kw : Kwargs) (runner : List String → ProcResult)
    (h : lookupKw kw "specify" = none) :
    invoke runner "iqtree" kw = .error (.missingRequiredValue "specify") := by
  simp only [invoke, build, parameters, walkParams, processDescr, h, Except.map, if_true]

/-- Witness for C1: constructing with only a model keyword and a
concrete runner fails with the missing-required-value error for
`specify`. -/
theorem C1_missing_required_fails_witness :
    invoke (fun _ => ⟨0, "", ""⟩) "iqtree" [("model", Value.strV "TESTONLY")]
      = .error (.missingRequiredValue "specify") :=
  C1_missing_required_fails [("model", Value.strV "TESTONLY")] (fun _ => ⟨0, "", ""⟩) rfl

/-- C4: constructing with only `specify = "align.phy"` and the default
executable name renders exactly the tokens `iqtree`, `-s`, `align.phy`
— executable first, flag and value as two separate tokens, nothing
else. -/
theorem C4_render_specify_only :
    build "iqtree" [("specify", Value.strV "align.phy")]
      = .ok ["iqtree", "-s", "align.phy"] := rfl

/-- C9 (code bug): descriptor names are not unique in the table — the
flag `-spp` and the attribute name `spp` each occur twice (the second
entry's help text describes the edge-unlinked partition model, which the
wrapped program assigns to a different flag), so neither the flag list
nor the name list is duplicate-free. -/
theorem C9_duplicate_spp :
    (parameters.map (·.flag)).count "-spp" = 2 ∧
    (parameters.map (·.name)).count "spp" = 2 ∧
    ¬ (parameters.map (·.flag)).Nodup ∧
    ¬ (parameters.map (·.name)).Nodup := by
  refine ⟨by decide, by decide, fun hn => ?_, fun hn => ?_⟩
  · have h1 := List.nodup_iff_count_le_one.mp hn "-spp"
    have h2 : (parameters.map (·.flag)).count "-spp" = 2 := by decide
    omega
  · have h1 := List.nodup_iff_count_le_one.mp hn "spp"
    have h2 : (parameters.map (·.name)).count "spp" = 2 := by decide
    omega

/-- C10: the integer checker accepts exactly Python ints (booleans
included, being ints) and nonempty all-digit strings; in particular the
ints `0` and `-5` pass while the string `"-5"` fails, and the
`checkpoint_interval` descriptor's checker behaves accordingly. -/
theorem C10_is_int_exact :
    (∀ v : Value, is_int v = true ↔
      ((∃ i, v = Value.intV i) ∨ (∃ b, v = Value.boolV b) ∨
       (∃ s, v = Value.strV s ∧ s.toList ≠ [] ∧ ∀ c ∈ s.toList, c.isDigit = true))) ∧
    is_int (Value.intV 0) = true ∧
    is_int (Value.intV (-5)) = true ∧
    is_int (Value.strV "-5") = false ∧
    is_int (Value.strV "5") = true ∧
    (paramAt 14).name = "checkpoint_interval" ∧
    applyChecker (paramAt 14).checker (Value.intV (-5)) = .ok true ∧
    applyChecker (paramAt 14).checker (Value.strV "-5") = .ok false := by
  refine ⟨fun v => ?_, rfl, rfl, by decide, by decide, rfl, rfl, rfl⟩
  cases v with
  | intV i => simp [is_int]
  | boolV b => simp [is_int]
  | strV s => simp [is_int, pyIsDigit_iff]

/-- C2 counterexample: the claim says that for `nt` only integers and
the keyword `AUTO` pass, every other string failing — but the source
tests `x in ("AUTO")`, and `("AUTO")` is the string `"AUTO"`, so the
test is substring containment: the string `"UT"`, which is neither a
digit string nor `"AUTO"`, passes the `nt` checker (as does the empty
string). -/
theorem C2_counterexample :
    Value.strV "UT" ≠ Value.strV "AUTO" ∧
    pyIsDigit "UT" = false ∧
    Pred.eval .ntEnum (Value.strV "UT") = true ∧
    Pred.eval .ntEnum (Value.strV "") = true ∧
    (paramAt 6).name = "nt" ∧
    applyChecker (paramAt 6).checker (Value.strV "UT") = .ok true := by
  exact ⟨by decide, by decide, by decide, by decide, rfl, rfl⟩

/-- C2 amended: the `sequencetype` checker accepts exactly the strings
DNA, AA, BIN, MORPH, CODON, NT2AA, DNA-to-AA (so `PROTEIN` fails); the
`nt` checker accepts exactly ints (booleans included), nonempty digit
strings, and contiguous substrings of the string `AUTO` (the empty
string among them) — not only the exact keyword `AUTO`. -/
theorem C2_enumeration_amended :
    (∀ v : Value, Pred.eval .stEnum v = true ↔
      ∃ s, v = Value.strV s ∧
        s ∈ ["DNA", "AA", "BIN", "MORPH", "CODON", "NT2AA", "DNA-to-AA"]) ∧
    (∀ v : Value, Pred.eval .ntEnum v = true ↔
      ((∃ i, v = Value.intV i) ∨ (∃ b, v = Value.boolV b) ∨
       ∃ s, v = Value.strV s ∧
         (pyIsDigit s = true ∨ s.toList <:+: "AUTO".toList))) ∧
    Pred.eval .stEnum (Value.strV "PROTEIN") = false ∧
    Pred.eval .stEnum (Value.strV "DNA-to-AA") = true ∧
    Pred.eval .ntEnum (Value.strV "AUTO") = true ∧
    Pred.eval .ntEnum (Value.strV "4") = true := by
  refine ⟨fun v => ?_, fun v => ?_, by decide, by decide, by decide, by decide⟩
  · cases v with
    | intV i => simp [Pred.eval]
    | boolV b => simp [Pred.eval]
    | strV s => simp [Pred.eval]
  · cases v with
    | intV i => simp [Pred.eval]
    | boolV b => simp [Pred.eval]
    | strV s => simp [Pred.eval, decide_eq_true_iff]

/-- C3 counterexample: the claim says a float-parseable string such as
`"0.5"` passes the `pers` descriptor's validation — but the `pers`
checker is `x in range(0, 1)`, which contains only the integer `0`, so
the string `"0.5"` fails it (construction rejects `pers = "0.5"` with an
invalid-value error). -/
theorem C3_counterexample :
    (paramAt 56).name = "pers" ∧
    applyChecker (paramAt 56).checker (Value.strV "0.5") = .ok false ∧
    processDescr [("pers", Value.strV "0.5")] (paramAt 56)
      = .error (.invalidValue "pers") := by
  exact ⟨rfl, rfl, rfl⟩

/-- C3 amended: for the descriptors checked by the numeric checker
(`bb`, `bcor`, `beps`, `amin`, `asr-min`) strings pass exactly when they
are float-parseable, so `"0.5"` passes and non-numeric strings fail; for
the descriptors checked by the integer checker (`checkpoint_interval`,
`ninit`, …) strings pass exactly when they are nonempty digit strings,
so `"0.5"` fails; and the `pers` checker, `x in range(0, 1)`, rejects
every string (accepting only values equal to `0`), so the claim's
example value `"0.5"` for `pers` fails. -/
theorem C3_numeric_checkers_amended :
    (∀ s : String, Pred.eval .persRange (Value.strV s) = false) ∧
    (∀ i : Int, Pred.eval .persRange (Value.intV i) = true ↔ i = 0) ∧
    (∀ s : String, is_number (Value.strV s) = pyFloatParseable s) ∧
    (is_number (Value.strV "0.5") = true ∧ is_number (Value.strV "1e-3") = true ∧
     is_number (Value.strV "abc") = false ∧ is_number (Value.strV "") = false) ∧
    (∀ s : String, is_int (Value.strV s) = pyIsDigit s) ∧
    (is_int (Value.strV "17") = true ∧ is_int (Value.strV "0.5") = false ∧
     is_int (Value.strV "abc") = false) ∧
    (paramAt 58).name = "bb" ∧
    applyChecker (paramAt 58).checker (Value.strV "0.5") = .ok true ∧
    (paramAt 14).name = "checkpoint_interval" ∧
    applyChecker (paramAt 14).checker (Value.strV "20") = .ok true := by
  refine ⟨fun s => rfl, fun i => ?_, fun s => rfl,
    ⟨by decide, by decide, by decide, by decide⟩,
    fun s => rfl, ⟨by decide, by decide, by decide⟩, rfl, rfl, rfl, rfl⟩
  simp [Pred.eval]

/-- C7 counterexample: the claim says validation of the `tree` and
`usertree` descriptors succeeds for every value — but their checker
lambdas evaluate the unbound name `filename` first, so every call raises
a NameError instead of returning a verdict; at the concrete value
`BIONJ`, validation does not succeed, and construction fails with the
propagated NameError. -/
theorem C7_counterexample :
    applyChecker (paramAt 2).checker (Value.strV "BIONJ")
      = .error (.nameError "filename") ∧
    applyChecker (paramAt 2).checker (Value.strV "BIONJ") ≠ .ok true ∧
    (paramAt 2).name = "tree" ∧
    build "iqtree" [("specify", Value.strV "a.phy"), ("tree", Value.strV "BIONJ")]
      = .error (.checkerRaised "tree" (.nameError "filename")) := by
  refine ⟨rfl, fun h => ?_, rfl, rfl⟩
  exact Except.noConfusion h

/-- C7 amended: for every supplied value, the `tree` and `usertree`
checkers raise NameError for the unbound name `filename` (the lambda's
condition references a name that no scope binds — it is not even a
reference to a function object), so validation of these descriptors
never succeeds and never rejects: construction with any `tree` or
`usertree` value fails with the propagated NameError. -/
theorem C7_tree_checker_amended :
    ∀ v : Value,
      applyChecker (paramAt 2).checker v = .error (.nameError "filename") ∧
      applyChecker (paramAt 3).checker v = .error (.nameError "filename") ∧
      (paramAt 3).name = "usertree" ∧
      build "iqtree" [("specify", Value.strV "a.phy"), ("tree", v)]
        = .error (.checkerRaised "tree" (.nameError "filename")) ∧
      build "iqtree" [("specify", Value.strV "a.phy"), ("usertree", v)]
        = .error (.checkerRaised "usertree" (.nameError "filename")) :=
  fun _v => ⟨rfl, rfl, rfl, rfl, rfl⟩

/-- C5 counterexample: the claim's example order `-s` before `-m` before
`-nt` is not the table's declaration order — `-nt` is declared before
`-m` — so the scenario with `specify`, `model` and `nt` renders the
`-nt` pair before the `-m` pair. -/
theorem C5_counterexample :
    build "iqtree"
        [("specify", Value.strV "align.phy"), ("model", Value.strV "TESTONLY"),
         ("nt", Value.strV "AUTO")]
      = .ok ["iqtree", "-s", "align.phy", "-nt", "AUTO", "-m", "TESTONLY"] ∧
    ["iqtree", "-s", "align.phy", "-nt", "AUTO", "-m", "TESTONLY"].indexOf "-nt"
      < ["iqtree", "-s", "align.phy", "-nt", "AUTO", "-m", "TESTONLY"].indexOf "-m" := by
  exact ⟨rfl, by decide⟩

/-- C5 amended: rendering is deterministic — for keyword lists that
induce the same name-value mapping on the table's names and mention only
table names, the built token sequence is identical, independent of the
order the keyword arguments were supplied — and flags are emitted in
declaration order, which for the scenario's three flags is `-s`, then
`-nt`, then `-m` (not `-m` before `-nt` as the claim's example has
it). -/
theorem C5_deterministic_order_amended :
    (∀ (c : String) (kw1 kw2 : Kwargs),
      (∀ n ∈ knownNames, lookupKw kw1 n = lookupKw kw2 n) →
      (∀ p ∈ kw1, p.1 ∈ knownNames) →
      (∀ p ∈ kw2, p.1 ∈ knownNames) →
      build c kw1 = build c kw2) ∧
    build "iqtree"
        [("nt", Value.strV "AUTO"), ("model", Value.strV "TESTONLY"),
         ("specify", Value.strV "align.phy")]
      = .ok ["iqtree", "-s", "align.phy", "-nt", "AUTO", "-m", "TESTONLY"] :=
  ⟨build_congr, rfl⟩

/-- Witness for C5: the scenario keyword list and a permutation of it
build the same token sequence. -/
theorem C5_deterministic_order_amended_witness :
    build "iqtree"
        [("specify", Value.strV "align.phy"), ("model", Value.strV "TESTONLY"),
         ("nt", Value.strV "AUTO")]
      = build "iqtree"
          [("nt", Value.strV "AUTO"), ("specify", Value.strV "align.phy"),
           ("model", Value.strV "TESTONLY")] :=
  C5_deterministic_order_amended.1 "iqtree" _ _ (by decide) (by decide) (by decide)

/-- C6: every switch descriptor in the table contributes its bare flag
as the only token when the supplied value is truthy, contributes nothing
when the supplied value is falsy, and contributes nothing when no value
is supplied; concretely, building with `redo = True` appends the bare
`-redo` token and building with `redo = False` leaves the command
without it. -/
theorem C6_switch_rendering :
    (∀ i : Nat, (paramAt i).isSwitch = true →
      ∀ kw : Kwargs,
        (lookupKw kw (paramAt i).name = none → processDescr kw (paramAt i) = .ok []) ∧
        (∀ v : Value, lookupKw kw (paramAt i).name = some v →
          processDescr kw (paramAt i)
            = .ok (if truthy v then [(paramAt i).flag] else []))) ∧
    build "iqtree" [("specify", Value.strV "align.phy"), ("redo", Value.boolV true)]
      = .ok ["iqtree", "-s", "align.phy", "-redo"] ∧
    build "iqtree" [("specify", Value.strV "align.phy"), ("redo", Value.boolV false)]
      = .ok ["iqtree", "-s", "align.phy"] := by
  refine ⟨fun i hsw kw => ?_, rfl, rfl⟩
  have hfact : ∀ d ∈ parameters, d.isSwitch = true →
      d.checker = Checker.noCheck ∧ d.isRequired = false := by decide
  have hd : paramAt i ∈ parameters ∨ paramAt i = default := by
    unfold paramAt
    rcases Nat.lt_or_ge i parameters.length with h | h
    · left
      rw [List.getD_eq_getElem _ _ h]
      exact List.getElem_mem h
    · right
      exact List.getD_eq_default _ _ h
  rcases hd with hmem | hdef
  · obtain ⟨hck, hreq⟩ := hfact _ hmem hsw
    constructor
    · intro hnone
      simp only [processDescr, hnone, hreq, Bool.false_eq_true, if_false]
    · intro v hsome
      simp only [processDescr, hsome, hck, applyChecker, renderDescr, hsw, if_true]
  · rw [hdef] at hsw
    exact absurd hsw (by decide)

/-- Witness for C6: the `verbose` descriptor is a switch; supplying a
truthy value renders the bare `-v` token, supplying a falsy value
renders nothing, and leaving it unsupplied renders nothing. -/
theorem C6_switch_rendering_witness :
    processDescr [("verbose", Value.boolV true)] (paramAt 8) = .ok ["-v"] ∧
    processDescr [("verbose", Value.boolV false)] (paramAt 8) = .ok [] ∧
    processDescr [] (paramAt 8) = .ok [] := by
  refine ⟨?_, ?_, ?_⟩
  · exact ((C6_switch_rendering.1 8 rfl [("verbose", Value.boolV true)]).2
      (Value.boolV true) rfl).trans rfl
  · exact ((C6_switch_rendering.1 8 rfl [("verbose", Value.boolV false)]).2
      (Value.boolV false) rfl).trans rfl
  · exact (C6_switch_rendering.1 8 rfl []).1 rfl

/-- C8 counterexample: the claim says every descriptor carrying a
validator carries a boolean-returning predicate and that this holds in
particular for `bo` — but the `bo` entry sets its checker slot to the
non-callable boolean `True`, and supplying any value for `bo` fails with
the TypeError from calling a non-callable, not with a value-error. -/
theorem C8_counterexample :
    (paramAt 69).name = "bo" ∧
    (paramAt 69).checker = Checker.boolConst true ∧
    Checker.isCallable (paramAt 69).checker = false ∧
    build "iqtree" [("specify", Value.strV "a.phy"), ("bo", Value.strV "100")]
      = .error (.checkerRaised "bo" PyErr.typeErrorNotCallable) := by
  exact ⟨rfl, by decide, by decide, rfl⟩

/-- C8 amended: for every descriptor whose checker slot holds a callable
predicate, a supplied value failing the predicate makes construction
fail with a value-error naming the offending descriptor; every
descriptor other than `bo` has either no checker or a callable one,
while `bo` alone holds the non-callable `True`, for which any supplied
value raises a TypeError instead. -/
theorem C8_checker_contract_amended :
    (∀ (d : Descriptor) (kw : Kwargs) (p : Pred) (v : Value),
      d.checker = Checker.fn p → lookupKw kw d.name = some v →
      Pred.eval p v = false →
      processDescr kw d = .error (.invalidValue d.name)) ∧
    (∀ d ∈ parameters, d.name ≠ "bo" →
      d.checker.isNone = true ∨ d.checker.isCallable = true) ∧
    Checker.isCallable (paramAt 69).checker = false ∧
    (paramAt 69).name = "bo" := by
  refine ⟨fun d kw p v hck hlk hev => ?_, by decide, by decide, rfl⟩
  simp only [processDescr, hlk, hck, applyChecker, hev]

/-- Witness for C8: supplying the out-of-enumeration value `PROTEIN` for
`sequencetype` fails with a value-error naming `sequencetype`. -/
theorem C8_checker_contract_amended_witness :
    processDescr [("sequencetype", Value.strV "PROTEIN")] (paramAt 1)
      = .error (.invalidValue "sequencetype") := by
  have h := C8_checker_contract_amended.1 (paramAt 1)
    [("sequencetype", Value.strV "PROTEIN")] Pred.stEnum (Value.strV "PROTEIN")
    rfl rfl (by decide)
  exact h.trans (by rfl)

end IQTree
